import Mathlib

/-!
# ProxyChecker: a shallow embedding of `src/main.go`

The program keeps a file `active.txt` of confirmed proxies, an in-memory map
`activeMap`, and loops forever: fetch the source lists, turn every line into a
`Proxy`, start one `checkProxy` goroutine per proxy, wait for all of them,
sync the file, sleep.

Modelling decisions.

* Go strings are modelled as Lean `String` (sequences of code points); the
  bodies handled are assumed to be valid UTF-8 text.
* The network, the file system and the scanner over a fetched body are the
  environment: every GET, every `ReadAll`, every `WriteString`, every `Sync`
  gets its result from an explicit environment value.
* A goroutine that blocks forever is modelled by a result marked as not
  finished (`TaskResult.returned = false`, `Run.blocked`).
* The goroutines of one cycle share only `activeFile` (one append each, the
  file is opened with `O_APPEND`) and `activeMap` (which they only read), so
  every interleaving has the effect of running them one after the other in
  some order; `runTasks` runs them in dispatch order.
-/

namespace ProxyChecker

/-! ## Strings (package `strings`, `unicode`) -/

namespace unicode

/-- Go `unicode.IsSpace`: the Latin-1 spaces `\t \n \v \f \r`, space, U+0085,
U+00A0, and the other code points with the White_Space property. -/
def IsSpace (c : Char) : Bool :=
  let n := c.toNat
  n == 0x09 || n == 0x0A || n == 0x0B || n == 0x0C || n == 0x0D || n == 0x20 ||
  n == 0x85 || n == 0xA0 || n == 0x1680 || (0x2000 ≤ n && n ≤ 0x200A) ||
  n == 0x2028 || n == 0x2029 || n == 0x202F || n == 0x205F || n == 0x3000

end unicode

namespace strings

/-- Go `strings.TrimSpace`: the string without leading and trailing white space. -/
def TrimSpace (s : String) : String :=
  String.mk ((s.data.dropWhile unicode.IsSpace).reverse.dropWhile unicode.IsSpace).reverse

/-- Scan for the substring `sub` at every position of the text. -/
def containsAt (sub : List Char) : List Char → Bool
  | [] => sub.isEmpty
  | c :: cs => sub.isPrefixOf (c :: cs) || containsAt sub cs

/-- Go `strings.Contains`. -/
def Contains (s substr : String) : Bool :=
  containsAt substr.data s.data

/-- The loop of `strings.Split` for a one-character separator: `cur` is the
field being read (reversed), every separator closes a field. -/
def splitLoop (sep : Char) : List Char → List Char → List String
  | [], cur => [String.mk cur.reverse]
  | c :: cs, cur =>
    if c = sep then String.mk cur.reverse :: splitLoop sep cs []
    else splitLoop sep cs (c :: cur)

/-- Go `strings.Split(s, sep)` for the one-character separator the program
uses: all the fields between separators, one more than there are separators. -/
def Split (s : String) (sep : Char) : List String :=
  splitLoop sep s.data []

end strings

/-! ## Maps (`map[string]bool`) -/

/-- A Go `map[string]bool`, as an association list with one entry per key. -/
abbrev GoMap := List (String × Bool)

namespace GoMap

/-- The value stored under `k`, if any. -/
def find (m : GoMap) (k : String) : Option Bool :=
  match m with
  | [] => none
  | (k', v) :: rest => if k' = k then some v else find rest k

/-- Go `m[k]`: the stored value, or the zero value `false`. -/
def index (m : GoMap) (k : String) : Bool :=
  (m.find k).getD false

/-- Go `_, ok := m[k]`: whether `k` has an entry. -/
def commaOk (m : GoMap) (k : String) : Bool :=
  (m.find k).isSome

/-- Go `m[k] = v`. -/
def assign (m : GoMap) (k : String) (v : Bool) : GoMap :=
  match m with
  | [] => [(k, v)]
  | (k', v') :: rest => if k' = k then (k, v) :: rest else (k', v') :: assign rest k v

/-- Go `len(m)`. -/
def len (m : GoMap) : Nat :=
  m.length

end GoMap

/-! ## Files (`os.File`) and the line scanner (`bufio.Scanner`) -/

/-- The access mode a file was opened with. -/
inductive Access
  | rdonly
  | wronly
  | rdwr
  deriving DecidableEq, Repr

/-- An open file: the bytes on disk and the access mode of the handle.  The
program opens its only file with `O_APPEND`, so every write goes to the end. -/
structure File where
  content : String
  access : Access
  deriving DecidableEq, Repr

/-- The environment's answer to one `WriteString`: `none` when the whole
text is written, `some n` when the write fails after `n` characters. -/
abbrev WriteEnv := Option Nat

namespace File

/-- Go `f.WriteString(s)` on an append-mode handle: the new file and whether
the call returned a nil error.  A handle opened read-only refuses the write. -/
def WriteString (f : File) (s : String) (w : WriteEnv) : File × Bool :=
  if f.access = Access.rdonly then (f, false)
  else
    match w with
    | none => ({ f with content := f.content ++ s }, true)
    | some n => ({ f with content := f.content ++ String.mk (s.data.take n) }, false)

end File

namespace bufio

/-- Go `dropCR`: a line without its final carriage return. -/
def dropCR (l : List Char) : List Char :=
  if l.getLast? = some '\r' then l.dropLast else l

/-- Go `bufio.ScanLines` applied until the end of the data: `cur` is the line
being read (reversed).  A final line without newline is returned when it is
not empty.  (Lines are taken to be shorter than the scanner's buffer.) -/
def scanLoop : List Char → List Char → List String
  | [], cur => if cur.isEmpty then [] else [String.mk (dropCR cur.reverse)]
  | c :: cs, cur =>
    if c = '\n' then String.mk (dropCR cur.reverse) :: scanLoop cs []
    else scanLoop cs (c :: cur)

/-- The lines `scanner.Text()` yields for the text `s`. -/
def ScanLines (s : String) : List String :=
  scanLoop s.data []

/-- The lines a `bufio.NewScanner(f)` yields: the first `Read` on a handle
opened write-only fails, so `Scan` returns false at once and no line is
produced (the program does not look at `scanner.Err()` there). -/
def scanFile (f : File) : List String :=
  if f.access = Access.wronly then [] else ScanLines f.content

end bufio

/-! ## Channels (`chan error`) -/

/-- A channel that no goroutine ever receives from, which is the case of
`errChan`: the program has five sends on it and no receive.  `capacity` is
the buffer size given to `make`, `queue` the buffered messages. -/
structure Chan where
  capacity : Nat
  queue : List String
  deriving DecidableEq, Repr

namespace Chan

/-- Go `ch <- msg` on a channel without receiver: the send completes only
when the buffer has room; otherwise the sender blocks forever (`none`). -/
def send (ch : Chan) (msg : String) : Option Chan :=
  if ch.queue.length < ch.capacity then some { ch with queue := ch.queue ++ [msg] }
  else none

end Chan

/-! ## The program -/

/-- The struct `Proxy` of the source. -/
structure Proxy where
  Ip : String
  Port : String
  Status : Int
  Active : Bool
  deriving DecidableEq, Repr

/-- The result of one `client.Get` followed by `ioutil.ReadAll`. -/
inductive GetResult
  /-- The request failed (`err != nil`). -/
  | transportErr
  /-- A response arrived; `body` is `none` when reading the body fails. -/
  | response (body : Option String)
  deriving DecidableEq, Repr

/-- What the environment does to one `checkProxy` call. -/
structure TaskEnv where
  first : GetResult
  retry : GetResult
  write : WriteEnv
  deriving DecidableEq, Repr

/-- The exits of `checkProxy`, named after the line each one logs. -/
inductive Branch
  /-- Logs "This proxy has already been scanned." -/
  | alreadyScanned
  /-- Logs "Invalid proxy." -/
  | invalid
  /-- Logs "This proxy is already in the active.txt file." -/
  | alreadyInFile
  /-- Logs "Failed connect to github.com" -/
  | connectFailed
  /-- Logs "Failed read response from github.com" -/
  | readFailed
  /-- Logs "Response does not match expected value." -/
  | mismatch
  /-- Logs "Valid proxy found." -/
  | valid
  deriving DecidableEq, Repr

/-- Everything one `checkProxy` call does. -/
structure TaskResult where
  /-- The exit taken. -/
  branch : Branch
  /-- The number of `client.Get` calls issued. -/
  gets : Nat
  /-- The texts passed to `activeFile.WriteString`. -/
  writes : List String
  /-- The shared file afterwards. -/
  activeFile : File
  /-- The shared channel afterwards. -/
  errChan : Chan
  /-- The final value of the parameter `proxy`, a copy local to the call. -/
  proxy : Proxy
  /-- Whether the function returned, so that the deferred `wg.Done()` ran. -/
  returned : Bool
  deriving DecidableEq, Repr

/-- The function `checkProxy` of the source (lines 35 to 96). -/
def checkProxy (proxy : Proxy) (env : TaskEnv) (errChan : Chan) (activeFile : File)
    (activeMap : GoMap) : TaskResult :=
  let proxyKey := proxy.Ip ++ proxy.Port
  if proxy.Status = 2 ∧ proxy.Active = true then
    ⟨Branch.alreadyScanned, 0, [], activeFile, errChan, proxy, true⟩
  else if proxy.Status ≠ 1 then
    ⟨Branch.invalid, 0, [], activeFile, errChan, { proxy with Status := 0 }, true⟩
  else if activeMap.index proxyKey = true then
    ⟨Branch.alreadyInFile, 0, [], activeFile, errChan, proxy, true⟩
  else
    -- resp, err := client.Get(..); if err != nil then resp, err = client.Get(..)
    let attempt : GetResult × Nat :=
      match env.first with
      | GetResult.transportErr => (env.retry, 2)
      | GetResult.response b => (GetResult.response b, 1)
    match attempt.1 with
    | GetResult.transportErr =>
      ⟨Branch.connectFailed, attempt.2, [], activeFile, errChan, { proxy with Status := 0 }, true⟩
    | GetResult.response none =>
      ⟨Branch.readFailed, attempt.2, [], activeFile, errChan, { proxy with Status := 0 }, true⟩
    | GetResult.response (some body) =>
      if strings.TrimSpace body ≠ "success" then
        ⟨Branch.mismatch, attempt.2, [], activeFile, errChan, { proxy with Status := 0 }, true⟩
      else
        let line := proxy.Ip ++ ":" ++ proxy.Port ++ "\n"
        let w := activeFile.WriteString line env.write
        if w.2 = true then
          ⟨Branch.valid, attempt.2, [line], w.1, errChan,
            { proxy with Active := true, Status := 2 }, true⟩
        else
          match errChan.send "Failed write to file" with
          | some ch =>
            ⟨Branch.valid, attempt.2, [line], w.1, ch,
              { proxy with Active := true, Status := 2 }, true⟩
          | none =>
            ⟨Branch.valid, attempt.2, [line], w.1, errChan,
              { proxy with Active := true }, false⟩

/-- A computation of the main goroutine: it either goes on with state `s`
or blocks forever in state `s`. -/
inductive Run (σ : Type) where
  | done (s : σ)
  | blocked (s : σ)
  deriving DecidableEq, Repr

namespace Run

/-- The state reached. -/
def state {σ : Type} : Run σ → σ
  | done s => s
  | blocked s => s

/-- Whether control went on. -/
def isDone {σ : Type} : Run σ → Bool
  | done _ => true
  | blocked _ => false

end Run

/-- The variables of `main` that live across the loop. -/
structure MainState where
  activeFile : File
  activeMap : GoMap
  proxyList : List Proxy
  errChan : Chan
  deriving DecidableEq, Repr

/-- What the environment answers for one source URL. -/
inductive Source
  /-- The call `http.Get(u)` fails. -/
  | fetchErr
  /-- The call `ioutil.ReadAll(resp.Body)` fails. -/
  | readErr
  /-- The body arrives: the lines the scanner yields, and whether
  `scanner.Err()` is non-nil afterwards. -/
  | body (lines : List String) (scanErr : Bool)
  deriving DecidableEq, Repr

/-- What the environment does during one iteration of the main loop: one
answer per source URL, one `TaskEnv` per dispatched task (by its index in
`proxyList`), and whether `activeFile.Sync()` succeeds. -/
structure CycleEnv where
  sources : List Source
  task : Nat → TaskEnv
  syncOk : Bool

/-- Lines 170 to 180 of `main`: the `Proxy` built from one scanned line, or
`none` when the line is passed over.  `proxySplit[0]` and `proxySplit[1]`
are the first two fields of the split. -/
def candidate (proxy : String) : Option Proxy :=
  if strings.Contains proxy "error code" = true then none
  else
    let proxySplit := strings.Split proxy ':'
    if proxySplit.length < 2 then none
    else
      match proxySplit with
      | ip :: port :: _ => some ⟨ip, port, 1, false⟩
      | _ => none

/-- The body of the scanner loop of `main` (lines 169 to 188): the new
`proxyList` after the line `proxy`. -/
def scanLine (activeMap : GoMap) (proxyList : List Proxy) (proxy : String) : List Proxy :=
  match candidate proxy with
  | none => proxyList
  | some p =>
    if activeMap.commaOk (p.Ip ++ p.Port) = true then proxyList
    else proxyList ++ [p]

/-- A send on `errChan` from `main`: go on when it completes, block otherwise. -/
def report (st : MainState) (msg : String) : Run MainState :=
  match st.errChan.send msg with
  | some ch => Run.done { st with errChan := ch }
  | none => Run.blocked st

/-- One iteration of `for _, u := range urls` (lines 152 to 194). -/
def fetchSource (st : MainState) (src : Source) : Run MainState :=
  match src with
  | Source.fetchErr => report st "Failed retrieve proxy list"
  | Source.readErr => report st "Failed read response"
  | Source.body lines scanErr =>
    let st1 := { st with proxyList := lines.foldl (scanLine st.activeMap) st.proxyList }
    if scanErr = true then report st1 "Error reading proxy list" else Run.done st1

/-- The loop over the sources (lines 152 to 194). -/
def fetchAll : List Source → MainState → Run MainState
  | [], st => Run.done st
  | src :: rest, st =>
    match fetchSource st src with
    | Run.done st1 => fetchAll rest st1
    | Run.blocked st1 => Run.blocked st1

/-- The goroutines started at lines 197 to 200, run one after the other in
dispatch order from index `i`: the shared file and channel afterwards, and
whether every one of them returned. -/
def runTasks (task : Nat → TaskEnv) (activeMap : GoMap) :
    List Proxy → Nat → File → Chan → File × Chan × Bool
  | [], _, f, ch => (f, ch, true)
  | p :: rest, i, f, ch =>
    let r := checkProxy p (task i) ch f activeMap
    let t := runTasks task activeMap rest (i + 1) r.activeFile r.errChan
    (t.1, t.2.1, r.returned && t.2.2)

/-- One iteration of the main loop (lines 150 to 215), up to the sleep. -/
def cycle (env : CycleEnv) (st : MainState) : Run MainState :=
  match fetchAll env.sources st with
  | Run.blocked st1 => Run.blocked st1
  | Run.done st1 =>
    let t := runTasks env.task st1.activeMap st1.proxyList 0 st1.activeFile st1.errChan
    let st2 := { st1 with activeFile := t.1, errChan := t.2.1 }
    -- wg.Wait() returns only when every task ran wg.Done()
    if t.2.2 = true then
      let st3 := { st2 with proxyList := [] }
      if env.syncOk = true then Run.done st3
      else report st3 "Failed to sync active.txt file"
    else Run.blocked st2

/-- The first iterations of the main loop, one per element of `envs`. -/
def mainLoop : List CycleEnv → MainState → Run MainState
  | [], st => Run.done st
  | env :: rest, st =>
    match cycle env st with
    | Run.done st1 => mainLoop rest st1
    | Run.blocked st1 => Run.blocked st1

/-- The loop of lines 112 to 114: every scanned line becomes a key of the map. -/
def loadLines (lines : List String) (activeMap : GoMap) : GoMap :=
  lines.foldl (fun m line => m.assign line true) activeMap

/-- Lines 100 to 147 of `main` when `os.OpenFile` succeeds on a disk file with
text `disk`: the handle is opened `O_APPEND|O_CREATE|O_WRONLY`, the map is
filled from a scanner over that handle, `proxyList` is nil and `errChan` is
unbuffered. -/
def startup (disk : String) : MainState :=
  let activeFile : File := ⟨disk, Access.wronly⟩
  let activeMap := loadLines (bufio.scanFile activeFile) []
  ⟨activeFile, activeMap, [], ⟨0, []⟩⟩

/-! ## Concrete environments used in the evaluations below -/

/-- The endpoint `1.2.3.4:8080` as the scanner loop builds it. -/
def sampleProxy : Proxy :=
  ⟨"1.2.3.4", "8080", 1, false⟩

/-- The handle of an empty `active.txt`, opened as `main` opens it. -/
def emptyFile : File :=
  ⟨"", Access.wronly⟩

/-- The channel `make(chan error)` of `main`: no buffer. -/
def unbuffered : Chan :=
  ⟨0, []⟩

/-- The canary answers the first GET with `success` and a newline, and the
append succeeds. -/
def envConfirm : TaskEnv :=
  ⟨GetResult.response (some "success\n"), GetResult.transportErr, none⟩

/-- The canary answers the first GET with `blocked`. -/
def envBlocked : TaskEnv :=
  ⟨GetResult.response (some "blocked"), GetResult.transportErr, none⟩

/-- The first GET fails, the retry is answered with `success`. -/
def envRetry : TaskEnv :=
  ⟨GetResult.transportErr, GetResult.response (some "success"), none⟩

/-- The canary answers `success`, and the append fails before any character
is written. -/
def envWriteFails : TaskEnv :=
  ⟨GetResult.response (some "success"), GetResult.transportErr, some 0⟩

/-- A cycle with a single source whose body has the given lines; every task
meets the environment `t`. -/
def oneSource (lines : List String) (t : TaskEnv) (syncOk : Bool) : CycleEnv :=
  ⟨[Source.body lines false], fun _ => t, syncOk⟩

/-- A cycle whose first source cannot be fetched and whose second source
lists `1.2.3.4:8080`. -/
def firstSourceDown : CycleEnv :=
  ⟨[Source.fetchErr, Source.body ["1.2.3.4:8080"] false], fun _ => envConfirm, true⟩

/-! ## Lemmas on the string functions -/

/-- The split has one field more than there are separators. -/
theorem splitLoop_length (sep : Char) (l cur : List Char) :
    (strings.splitLoop sep l cur).length = l.count sep + 1 := by
  induction l generalizing cur with
  | nil => simp [strings.splitLoop]
  | cons c cs ih =>
    by_cases h : c = sep
    · subst h
      simp [strings.splitLoop, ih]
    · have h2 : ¬ (c == sep) = true := by simpa using h
      simp [strings.splitLoop, h, ih, List.count_cons, h2]

/-- The first field of the split is the text up to the first separator. -/
theorem splitLoop_head (sep : Char) (l cur : List Char) :
    ∃ field rest : List Char, ∃ tl : List String,
      l = field ++ rest ∧ sep ∉ field ∧ (rest = [] ∨ rest.head? = some sep) ∧
      strings.splitLoop sep l cur = String.mk (cur.reverse ++ field) :: tl := by
  induction l generalizing cur with
  | nil => exact ⟨[], [], [], by simp [strings.splitLoop]⟩
  | cons c cs ih =>
    by_cases h : c = sep
    · subst h
      exact ⟨[], c :: cs, strings.splitLoop c cs [], by simp [strings.splitLoop]⟩
    · obtain ⟨field, rest, tl, h1, h2, h3, h4⟩ := ih (c :: cur)
      refine ⟨c :: field, rest, tl, by simp [h1], ?_, h3, ?_⟩
      · simp only [List.mem_cons, not_or]
        exact ⟨fun e => h e.symm, h2⟩
      · simp [strings.splitLoop, h, h4]

/-- When the text has a separator, the first two fields of the split are the
text before the first separator and the text between the first separator
and the next one (or the end). -/
theorem splitLoop_fields (sep : Char) (l cur : List Char) (h : sep ∈ l) :
    ∃ host port rest : List Char, ∃ tl : List String,
      l = host ++ sep :: (port ++ rest) ∧ sep ∉ host ∧ sep ∉ port ∧
      (rest = [] ∨ rest.head? = some sep) ∧
      strings.splitLoop sep l cur =
        String.mk (cur.reverse ++ host) :: String.mk port :: tl := by
  induction l generalizing cur with
  | nil => simp at h
  | cons c cs ih =>
    by_cases hc : c = sep
    · subst hc
      obtain ⟨field, rest, tl, h1, h2, h3, h4⟩ := splitLoop_head c cs []
      refine ⟨[], field, rest, tl, by simp [h1], by simp, h2, h3, ?_⟩
      simpa [strings.splitLoop] using h4
    · have hmem : sep ∈ cs := by
        rcases List.mem_cons.mp h with e | e
        · exact absurd e.symm hc
        · exact e
      obtain ⟨host, port, rest, tl, h1, h2, h3, h4, h5⟩ := ih (c :: cur) hmem
      refine ⟨c :: host, port, rest, tl, by simp [h1], ?_, h3, h4, ?_⟩
      · simp only [List.mem_cons, not_or]
        exact ⟨fun e => hc e.symm, h2⟩
      · simp [strings.splitLoop, hc, h5]

/-- A line has fewer than two fields exactly when it has no colon. -/
theorem split_length_lt_two_iff (line : String) :
    (strings.Split line ':').length < 2 ↔ ':' ∉ line.data := by
  unfold strings.Split
  rw [splitLoop_length]
  constructor
  · intro h hm
    have := List.count_pos_iff.mpr hm
    omega
  · intro h
    rw [List.count_eq_zero.mpr h]
    decide

/-! ## Lemmas on the map -/

/-- Reading a map after an assignment. -/
theorem find_assign (m : GoMap) (k k2 : String) (v : Bool) :
    (m.assign k v).find k2 = if k = k2 then some v else m.find k2 := by
  induction m with
  | nil => simp [GoMap.assign, GoMap.find]
  | cons e rest ih =>
    obtain ⟨k1, v1⟩ := e
    by_cases h1 : k1 = k
    · subst h1
      by_cases h2 : k1 = k2 <;> simp [GoMap.assign, GoMap.find, h2]
    · by_cases h2 : k1 = k2
      · subst h2
        have h3 : ¬ k = k1 := fun e => h1 e.symm
        simp [GoMap.assign, GoMap.find, h1, h3]
      · simp [GoMap.assign, GoMap.find, h1, h2, ih]

/-- Reading the map the loading loop builds: the loaded lines map to `true`. -/
theorem find_loadLines (lines : List String) (m : GoMap) (k : String) :
    (loadLines lines m).find k = if k ∈ lines then some true else m.find k := by
  induction lines generalizing m with
  | nil => simp [loadLines]
  | cons l ls ih =>
    have hstep : loadLines (l :: ls) m = loadLines ls (m.assign l true) := by
      simp [loadLines]
    rw [hstep, ih, find_assign]
    by_cases h1 : k ∈ ls
    · simp [h1]
    · by_cases h2 : l = k
      · subst h2; simp
      · have h3 : ¬ k = l := fun e => h2 e.symm
        simp [h1, h2, h3]

/-- In a map built by the loading loop the two lookups of the program agree:
the value read by `checkProxy` is `true` exactly for the keys present. -/
theorem loadLines_index_eq_commaOk (lines : List String) (k : String) :
    (loadLines lines []).index k = (loadLines lines []).commaOk k := by
  unfold GoMap.index GoMap.commaOk
  rw [find_loadLines]
  by_cases h : k ∈ lines <;> simp [h, GoMap.find]

/-! ## The normalizer (scanner loop of `main`) -/

/-- Claim C7: a line without a colon (equivalently, one that splits into
fewer than two fields) or a line containing the marker `error code` yields no
candidate: `proxyList` is left as it was, and processing a body made of that
line alone leaves the whole state of `main` unchanged and sends no error. -/
theorem malformed_line_dropped (st : MainState) (line : String)
    (h : ':' ∉ line.data ∨ (strings.Split line ':').length < 2 ∨
      strings.Contains line "error code" = true) :
    candidate line = none ∧
    scanLine st.activeMap st.proxyList line = st.proxyList ∧
    fetchSource st (Source.body [line] false) = Run.done st := by
  have hc : candidate line = none := by
    unfold candidate
    rcases h with h | h | h
    · simp [(split_length_lt_two_iff line).mpr h]
    · simp [h]
    · simp [h]
  refine ⟨hc, ?_, ?_⟩
  · simp [scanLine, hc]
  · simp [fetchSource, scanLine, hc]

/-- Witness of C7: the line `bad-entry` has no colon and is dropped. -/
theorem malformed_line_dropped_witness :
    ':' ∉ "bad-entry".data ∧
    candidate "bad-entry" = none ∧
    scanLine [] [sampleProxy] "bad-entry" = [sampleProxy] :=
  ⟨by decide,
    (malformed_line_dropped ⟨emptyFile, [], [sampleProxy], unbuffered⟩ "bad-entry"
      (Or.inl (by decide))).1,
    (malformed_line_dropped ⟨emptyFile, [], [sampleProxy], unbuffered⟩ "bad-entry"
      (Or.inl (by decide))).2.1⟩

/-- Counterexample to C8 as stated: the line `h:p:x` is accepted, but the
candidate built from it does not have host `h` and port `p:x`. -/
theorem port_is_not_rest_of_line :
    ¬ ∃ p : Proxy, candidate "h:p:x" = some p ∧ p.Ip = "h" ∧ p.Port = "p:x" := by
  decide

/-- Claim C8, amended: an accepted line (no marker, at least one colon) is
split on every colon and the candidate is built from the first two fields:
the host is the text before the first colon, the port is the text between
the first colon and the next colon, or the end of the line when there is no
other colon; whatever follows the second colon is ignored. -/
theorem candidate_fields (line : String)
    (hmark : strings.Contains line "error code" = false)
    (hcolon : ':' ∈ line.data) :
    ∃ host port rest : List Char,
      line.data = host ++ ':' :: (port ++ rest) ∧ ':' ∉ host ∧ ':' ∉ port ∧
      (rest = [] ∨ rest.head? = some ':') ∧
      candidate line = some ⟨String.mk host, String.mk port, 1, false⟩ := by
  obtain ⟨host, port, rest, tl, h1, h2, h3, h4, h5⟩ := splitLoop_fields ':' line.data [] hcolon
  refine ⟨host, port, rest, h1, h2, h3, h4, ?_⟩
  have hlen : ¬ (strings.Split line ':').length < 2 := by
    rw [split_length_lt_two_iff]; exact fun hn => hn hcolon
  unfold candidate
  simp only [hmark, hlen]
  simp [strings.Split, h5]

/-- Witness of the amended C8 at the line `h:p:x`. -/
theorem candidate_fields_witness :
    strings.Contains "h:p:x" "error code" = false ∧ ':' ∈ "h:p:x".data ∧
    ∃ host port rest : List Char,
      "h:p:x".data = host ++ ':' :: (port ++ rest) ∧ ':' ∉ host ∧ ':' ∉ port ∧
      (rest = [] ∨ rest.head? = some ':') ∧
      candidate "h:p:x" = some ⟨String.mk host, String.mk port, 1, false⟩ :=
  ⟨by decide, by decide, candidate_fields "h:p:x" (by decide) (by decide)⟩

/-- The key of a candidate built by the scanner loop has no colon. -/
theorem candidate_key_no_colon (line : String) (p : Proxy) (h : candidate line = some p) :
    ':' ∉ (p.Ip ++ p.Port).data := by
  by_cases hmark : strings.Contains line "error code" = true
  · simp [candidate, hmark] at h
  · by_cases hcolon : ':' ∈ line.data
    · obtain ⟨host, port, rest, tl, _, h2, h3, _, h5⟩ :=
        splitLoop_fields ':' line.data [] hcolon
      have hlen : ¬ (strings.Split line ':').length < 2 := by
        rw [split_length_lt_two_iff]; exact fun hn => hn hcolon
      unfold candidate at h
      simp only [hmark, hlen] at h
      simp [strings.Split, h5] at h
      subst h
      simp [h2, h3]
    · have hlen : (strings.Split line ':').length < 2 :=
        (split_length_lt_two_iff line).mpr hcolon
      simp [candidate, hlen] at h

/-- The membership test of the scanner loop never finds a candidate in a map
loaded from lines that all contain a colon, as every line written by
`checkProxy` does. -/
theorem reloaded_key_not_found (lines : List String) (line : String) (p : Proxy)
    (hl : ∀ l ∈ lines, ':' ∈ l.data) (h : candidate line = some p) :
    (loadLines lines []).commaOk (p.Ip ++ p.Port) = false := by
  unfold GoMap.commaOk
  rw [find_loadLines]
  have hk : (p.Ip ++ p.Port) ∉ lines := fun hm =>
    candidate_key_no_colon line p h (hl _ hm)
  simp [hk, GoMap.find]

/-- Evaluation for C10: the lines `10.0.0.1:180` and `10.0.0.11:80` give two
candidates with different hosts and ports and the same key, and once the key
of the first is in the map the second is skipped by the scanner loop. -/
theorem key_collision :
    candidate "10.0.0.1:180" = some ⟨"10.0.0.1", "180", 1, false⟩ ∧
    candidate "10.0.0.11:80" = some ⟨"10.0.0.11", "80", 1, false⟩ ∧
    "10.0.0.1" ++ "180" = "10.0.0.11" ++ "80" ∧
    "10.0.0.1" ≠ "10.0.0.11" ∧ "180" ≠ "80" ∧
    scanLine (loadLines ["10.0.0.1" ++ "180"] []) [] "10.0.0.11:80" = [] := by
  decide

/-! ## The validator (`checkProxy`) -/

/-- Claim C1: for a proxy that is probed (Status 1, no `true` entry under its
key) and a body `b` received from the canary, on the first GET or on the
retry: when `b` trimmed is `success` the call takes the exit "Valid proxy
found", issues exactly one `WriteString`, of the line host, colon, port,
newline, and (the write succeeding) the file grows by exactly that line;
when `b` trimmed is anything else the call takes the exit "Response does not
match expected value", writes nothing and leaves the file as it was. -/
theorem probe_body_decides (p : Proxy) (env : TaskEnv) (errChan : Chan) (activeFile : File)
    (activeMap : GoMap) (b : String)
    (hs : p.Status = 1) (hk : activeMap.index (p.Ip ++ p.Port) = false)
    (hb : env.first = GetResult.response (some b) ∨
      (env.first = GetResult.transportErr ∧ env.retry = GetResult.response (some b))) :
    (strings.TrimSpace b = "success" →
      (checkProxy p env errChan activeFile activeMap).branch = Branch.valid ∧
      (checkProxy p env errChan activeFile activeMap).writes = [p.Ip ++ ":" ++ p.Port ++ "\n"] ∧
      (env.write = none → activeFile.access ≠ Access.rdonly →
        (checkProxy p env errChan activeFile activeMap).activeFile.content =
          activeFile.content ++ (p.Ip ++ ":" ++ p.Port ++ "\n"))) ∧
    (strings.TrimSpace b ≠ "success" →
      (checkProxy p env errChan activeFile activeMap).branch = Branch.mismatch ∧
      (checkProxy p env errChan activeFile activeMap).writes = [] ∧
      (checkProxy p env errChan activeFile activeMap).activeFile = activeFile) := by
  have h1 : ¬ (p.Status = 2 ∧ p.Active = true) := by
    intro h; rw [hs] at h; exact absurd h.1 (by decide)
  obtain ⟨first, retry, write⟩ := env
  simp only at hb
  constructor
  · intro ht
    rcases hb with hb | ⟨hf, hr⟩
    · subst hb
      refine ⟨?_, ?_, ?_⟩
      · simp only [checkProxy, h1, hs, hk, ht]
        simp
        split <;> [rfl; (split <;> rfl)]
      · simp only [checkProxy, h1, hs, hk, ht]
        simp
        split <;> [rfl; (split <;> rfl)]
      · intro hw ha
        subst hw
        simp [checkProxy, h1, hs, hk, ht, File.WriteString, ha]
    · subst hf; subst hr
      refine ⟨?_, ?_, ?_⟩
      · simp only [checkProxy, h1, hs, hk, ht]
        simp
        split <;> [rfl; (split <;> rfl)]
      · simp only [checkProxy, h1, hs, hk, ht]
        simp
        split <;> [rfl; (split <;> rfl)]
      · intro hw ha
        subst hw
        simp [checkProxy, h1, hs, hk, ht, File.WriteString, ha]
  · intro ht
    rcases hb with hb | ⟨hf, hr⟩
    · subst hb
      simp [checkProxy, h1, hs, hk, ht]
    · subst hf; subst hr
      simp [checkProxy, h1, hs, hk, ht]

/-- Witness of C1: the endpoint `1.2.3.4:8080` with the canary body `success`
followed by a newline is confirmed and its line is appended to an empty file;
with the canary body `blocked` it is rejected and the file stays empty. -/
theorem probe_body_decides_witness :
    sampleProxy.Status = 1 ∧ GoMap.index [] (sampleProxy.Ip ++ sampleProxy.Port) = false ∧
    strings.TrimSpace "success\n" = "success" ∧
    (checkProxy sampleProxy envConfirm unbuffered emptyFile []).branch = Branch.valid ∧
    (checkProxy sampleProxy envConfirm unbuffered emptyFile []).writes = ["1.2.3.4:8080\n"] ∧
    (checkProxy sampleProxy envConfirm unbuffered emptyFile []).activeFile.content
      = "1.2.3.4:8080\n" ∧
    (checkProxy sampleProxy envBlocked unbuffered emptyFile []).branch = Branch.mismatch ∧
    (checkProxy sampleProxy envBlocked unbuffered emptyFile []).activeFile = emptyFile :=
  ⟨by decide, by decide, by decide,
    ((probe_body_decides sampleProxy envConfirm unbuffered emptyFile [] "success\n"
      (by decide) (by decide) (Or.inl (by decide))).1 (by decide)).1,
    ((probe_body_decides sampleProxy envConfirm unbuffered emptyFile [] "success\n"
      (by decide) (by decide) (Or.inl (by decide))).1 (by decide)).2.1,
    ((probe_body_decides sampleProxy envConfirm unbuffered emptyFile [] "success\n"
      (by decide) (by decide) (Or.inl (by decide))).1 (by decide)).2.2 (by decide) (by decide),
    ((probe_body_decides sampleProxy envBlocked unbuffered emptyFile [] "blocked"
      (by decide) (by decide) (Or.inl (by decide))).2 (by decide)).1,
    ((probe_body_decides sampleProxy envBlocked unbuffered emptyFile [] "blocked"
      (by decide) (by decide) (Or.inl (by decide))).2 (by decide)).2.2⟩

/-- Claim C4: when the key of a proxy is present in the map that the loading
loop of `main` builds (from any lines), the scanner loop does not add the
candidate of that key to `proxyList`, and `checkProxy` called with that proxy
returns without issuing any GET and without writing to the file. -/
theorem known_key_skipped (lines : List String) (p : Proxy) (proxyList : List Proxy)
    (line : String) (env : TaskEnv) (errChan : Chan) (activeFile : File)
    (hk : (loadLines lines []).commaOk (p.Ip ++ p.Port) = true) :
    (candidate line = some p → scanLine (loadLines lines []) proxyList line = proxyList) ∧
    (checkProxy p env errChan activeFile (loadLines lines [])).gets = 0 ∧
    (checkProxy p env errChan activeFile (loadLines lines [])).writes = [] ∧
    (checkProxy p env errChan activeFile (loadLines lines [])).activeFile = activeFile ∧
    (checkProxy p env errChan activeFile (loadLines lines [])).returned = true := by
  have hi : (loadLines lines []).index (p.Ip ++ p.Port) = true := by
    rw [loadLines_index_eq_commaOk]; exact hk
  refine ⟨?_, ?_⟩
  · intro hc
    simp [scanLine, hc, hk]
  · unfold checkProxy
    by_cases h1 : p.Status = 2 ∧ p.Active = true
    · simp [h1]
    · by_cases h2 : p.Status = 1
      · simp [h1, h2, hi]
      · simp [h1, h2]

/-- Witness of C4: with the key `1.2.3.48080` loaded, the line `1.2.3.4:8080`
is not added to the list and `checkProxy` issues no GET for it. -/
theorem known_key_skipped_witness :
    (loadLines ["1.2.3.48080"] []).commaOk (sampleProxy.Ip ++ sampleProxy.Port) = true ∧
    candidate "1.2.3.4:8080" = some sampleProxy ∧
    scanLine (loadLines ["1.2.3.48080"] []) [] "1.2.3.4:8080" = [] ∧
    (checkProxy sampleProxy envConfirm unbuffered emptyFile (loadLines ["1.2.3.48080"] [])).gets
      = 0 :=
  ⟨by decide, by decide,
    (known_key_skipped ["1.2.3.48080"] sampleProxy [] "1.2.3.4:8080" envConfirm unbuffered
      emptyFile (by decide)).1 (by decide),
    (known_key_skipped ["1.2.3.48080"] sampleProxy [] "1.2.3.4:8080" envConfirm unbuffered
      emptyFile (by decide)).2.1⟩

/-- Claim C6: a probed proxy (Status 1, no `true` entry under its key) costs
one or two GETs; two exactly when the first GET fails; the exit is "Failed
connect to github.com" exactly when both GETs fail.  When the first GET
fails and the retry brings a response, the retry's body decides: the exit is
"Valid proxy found" exactly when that body trimmed is `success`, with the one
write of the proxy's line, it is "Response does not match expected value"
exactly when the trimmed body is anything else, with no write, and it is
"Failed read response from github.com", with no write, when the body cannot
be read; in each case the call ends as it would had that response come
first.  When the first GET brings a response, its body decides in the same
way and the retry's answer plays no part. -/
theorem retry_policy (p : Proxy) (env : TaskEnv) (errChan : Chan) (activeFile : File)
    (activeMap : GoMap)
    (hs : p.Status = 1) (hk : activeMap.index (p.Ip ++ p.Port) = false) :
    (1 ≤ (checkProxy p env errChan activeFile activeMap).gets ∧
      (checkProxy p env errChan activeFile activeMap).gets ≤ 2) ∧
    ((checkProxy p env errChan activeFile activeMap).gets = 2 ↔
      env.first = GetResult.transportErr) ∧
    ((checkProxy p env errChan activeFile activeMap).branch = Branch.connectFailed ↔
      env.first = GetResult.transportErr ∧ env.retry = GetResult.transportErr) ∧
    (∀ body : Option String, env.first = GetResult.transportErr →
      env.retry = GetResult.response body →
      (checkProxy p env errChan activeFile activeMap).branch =
        (checkProxy p ⟨GetResult.response body, env.retry, env.write⟩
          errChan activeFile activeMap).branch ∧
      (checkProxy p env errChan activeFile activeMap).writes =
        (checkProxy p ⟨GetResult.response body, env.retry, env.write⟩
          errChan activeFile activeMap).writes ∧
      (checkProxy p env errChan activeFile activeMap).activeFile =
        (checkProxy p ⟨GetResult.response body, env.retry, env.write⟩
          errChan activeFile activeMap).activeFile ∧
      (checkProxy p env errChan activeFile activeMap).returned =
        (checkProxy p ⟨GetResult.response body, env.retry, env.write⟩
          errChan activeFile activeMap).returned) ∧
    (∀ b : String, env.first = GetResult.transportErr →
      env.retry = GetResult.response (some b) →
      ((checkProxy p env errChan activeFile activeMap).branch = Branch.valid ↔
        strings.TrimSpace b = "success") ∧
      ((checkProxy p env errChan activeFile activeMap).branch = Branch.mismatch ↔
        strings.TrimSpace b ≠ "success") ∧
      (checkProxy p env errChan activeFile activeMap).writes =
        (if strings.TrimSpace b = "success" then [p.Ip ++ ":" ++ p.Port ++ "\n"] else [])) ∧
    (env.first = GetResult.transportErr → env.retry = GetResult.response none →
      (checkProxy p env errChan activeFile activeMap).branch = Branch.readFailed ∧
      (checkProxy p env errChan activeFile activeMap).writes = []) ∧
    (∀ b : String, env.first = GetResult.response (some b) →
      ((checkProxy p env errChan activeFile activeMap).branch = Branch.valid ↔
        strings.TrimSpace b = "success") ∧
      ((checkProxy p env errChan activeFile activeMap).branch = Branch.mismatch ↔
        strings.TrimSpace b ≠ "success") ∧
      (checkProxy p env errChan activeFile activeMap).writes =
        (if strings.TrimSpace b = "success" then [p.Ip ++ ":" ++ p.Port ++ "\n"] else [])) := by
  have h1 : ¬ (p.Status = 2 ∧ p.Active = true) := by
    intro h; rw [hs] at h; exact absurd h.1 (by decide)
  obtain ⟨first, retry, write⟩ := env
  by_cases hw : (activeFile.WriteString (p.Ip ++ ":" ++ p.Port ++ "\n") write).2 = true
  · rcases first with _ | _ | b <;> rcases retry with _ | _ | b2 <;>
      simp [checkProxy, h1, hs, hk, hw] <;> split <;> simp_all
  · cases hsend : errChan.send "Failed write to file" <;>
      rcases first with _ | _ | b <;> rcases retry with _ | _ | b2 <;>
      simp [checkProxy, h1, hs, hk, hw, hsend] <;> split <;> simp_all

/-- Witness of C6: the first GET fails and the retry answers `success`: two
GETs are issued and, the retry's body trimmed being `success`, the proxy is
confirmed with the one write of its line. -/
theorem retry_policy_witness :
    sampleProxy.Status = 1 ∧ GoMap.index [] (sampleProxy.Ip ++ sampleProxy.Port) = false ∧
    (checkProxy sampleProxy envRetry unbuffered emptyFile []).gets = 2 ∧
    (checkProxy sampleProxy envRetry unbuffered emptyFile []).branch = Branch.valid ∧
    (checkProxy sampleProxy envRetry unbuffered emptyFile []).writes =
      (if strings.TrimSpace "success" = "success" then ["1.2.3.4:8080\n"] else []) :=
  ⟨by decide, by decide,
    (retry_policy sampleProxy envRetry unbuffered emptyFile [] (by decide) (by decide)).2.1.mpr
      (by decide),
    ((retry_policy sampleProxy envRetry unbuffered emptyFile [] (by decide)
      (by decide)).2.2.2.2.1 "success" (by decide) (by decide)).1.mpr (by decide),
    ((retry_policy sampleProxy envRetry unbuffered emptyFile [] (by decide)
      (by decide)).2.2.2.2.1 "success" (by decide) (by decide)).2.2⟩

/-! ## The main loop -/

/-- A send on `errChan` from `main` leaves `activeMap` alone. -/
theorem report_activeMap (st : MainState) (msg : String) :
    (report st msg).state.activeMap = st.activeMap := by
  unfold report
  cases st.errChan.send msg <;> rfl

/-- Processing one source leaves `activeMap` alone. -/
theorem fetchSource_activeMap (st : MainState) (src : Source) :
    (fetchSource st src).state.activeMap = st.activeMap := by
  cases src with
  | fetchErr => exact report_activeMap st _
  | readErr => exact report_activeMap st _
  | body lines scanErr =>
    cases scanErr with
    | false => simp [fetchSource, Run.state]
    | true =>
      simp only [fetchSource, if_true]
      rw [report_activeMap]

/-- Processing all the sources leaves `activeMap` alone. -/
theorem fetchAll_activeMap (srcs : List Source) (st : MainState) :
    (fetchAll srcs st).state.activeMap = st.activeMap := by
  induction srcs generalizing st with
  | nil => rfl
  | cons src rest ih =>
    have h := fetchSource_activeMap st src
    unfold fetchAll
    cases hf : fetchSource st src with
    | done st1 =>
      rw [hf] at h
      simp only
      rw [ih st1]
      exact h
    | blocked st1 =>
      rw [hf] at h
      exact h

/-- One iteration of the main loop never changes `activeMap`, whatever the
tasks find: no statement of the loop assigns to the map. -/
theorem cycle_activeMap (env : CycleEnv) (st : MainState) :
    (cycle env st).state.activeMap = st.activeMap := by
  have h := fetchAll_activeMap env.sources st
  unfold cycle
  cases hf : fetchAll env.sources st with
  | blocked st1 =>
    rw [hf] at h
    exact h
  | done st1 =>
    rw [hf] at h
    simp only
    split
    · split
      · exact h
      · rw [report_activeMap]; exact h
    · exact h

/-- The map is the same after any number of iterations of the main loop. -/
theorem mainLoop_activeMap (envs : List CycleEnv) (st : MainState) :
    (mainLoop envs st).state.activeMap = st.activeMap := by
  induction envs generalizing st with
  | nil => rfl
  | cons env rest ih =>
    have h := cycle_activeMap env st
    unfold mainLoop
    cases hc : cycle env st with
    | done st1 =>
      rw [hc] at h
      simp only
      rw [ih st1]
      exact h
    | blocked st1 =>
      rw [hc] at h
      exact h

/-- A send on the unbuffered `errChan` never completes. -/
theorem send_unbuffered (msg : String) : unbuffered.send msg = none := by
  simp [Chan.send, unbuffered]

/-- With the unbuffered `errChan`, a source that cannot be fetched blocks
`main` at the send of line 155: the sources after it are not processed. -/
theorem fetch_failure_blocks (rest : List Source) (st : MainState)
    (h : st.errChan = unbuffered) :
    fetchAll (Source.fetchErr :: rest) st = Run.blocked st := by
  simp [fetchAll, fetchSource, report, h, send_unbuffered]

/-- Evaluation for C2: from an empty `active.txt`, one cycle over the line
`1.2.3.4:8080` with the canary answering `success`: the task takes the exit
"Valid proxy found", the cycle completes with the line in the file, and the
key of the proxy is not in `activeMap` afterwards. -/
theorem confirmed_key_not_in_activeMap :
    (checkProxy sampleProxy envConfirm unbuffered emptyFile []).branch = Branch.valid ∧
    cycle (oneSource ["1.2.3.4:8080"] envConfirm true) (startup "") =
      Run.done ⟨⟨"1.2.3.4:8080\n", Access.wronly⟩, [], [], unbuffered⟩ ∧
    (cycle (oneSource ["1.2.3.4:8080"] envConfirm true) (startup "")).state.activeMap.commaOk
      (sampleProxy.Ip ++ sampleProxy.Port) = false := by
  decide

/-- Evaluation for C3: the file written for the one confirmed endpoint
`1.2.3.4:8080` is reloaded at the next start into a map with no entry, and
the scanner loop then puts the endpoint on the list to probe; even the lines
of that file, read back, give the one key `1.2.3.4:8080`, under which the
membership test, which asks for `1.2.3.48080`, finds nothing. -/
theorem reload_does_not_find_entry :
    (cycle (oneSource ["1.2.3.4:8080"] envConfirm true) (startup "")).state.activeFile.content
      = "1.2.3.4:8080\n" ∧
    (startup "1.2.3.4:8080\n").activeMap.len = 0 ∧
    scanLine (startup "1.2.3.4:8080\n").activeMap [] "1.2.3.4:8080" = [sampleProxy] ∧
    loadLines (bufio.ScanLines "1.2.3.4:8080\n") [] = [("1.2.3.4:8080", true)] ∧
    (loadLines (bufio.ScanLines "1.2.3.4:8080\n") []).commaOk
      (sampleProxy.Ip ++ sampleProxy.Port) = false := by
  decide

/-- Evaluation for C5: two cycles over the same line `1.2.3.4:8080`, and one
cycle in which the line occurs twice, each leave the line twice in the file. -/
theorem line_appended_twice :
    mainLoop [oneSource ["1.2.3.4:8080"] envConfirm true,
        oneSource ["1.2.3.4:8080"] envConfirm true] (startup "") =
      Run.done ⟨⟨"1.2.3.4:8080\n1.2.3.4:8080\n", Access.wronly⟩, [], [], unbuffered⟩ ∧
    cycle (oneSource ["1.2.3.4:8080", "1.2.3.4:8080"] envConfirm true) (startup "") =
      Run.done ⟨⟨"1.2.3.4:8080\n1.2.3.4:8080\n", Access.wronly⟩, [], [], unbuffered⟩ := by
  decide

/-- Evaluation for C9: when the first source cannot be fetched the cycle
blocks before the second source is read and the loop never reaches the next
cycle; a task whose append fails never returns, so the cycle blocks at the
join; and a failed sync blocks the cycle too. -/
theorem error_report_blocks :
    cycle firstSourceDown (startup "") = Run.blocked (startup "") ∧
    mainLoop [firstSourceDown, oneSource ["1.2.3.4:8080"] envConfirm true] (startup "") =
      Run.blocked (startup "") ∧
    (checkProxy sampleProxy envWriteFails unbuffered emptyFile []).returned = false ∧
    (cycle (oneSource ["1.2.3.4:8080"] envWriteFails true) (startup "")).isDone = false ∧
    (cycle (oneSource ["1.2.3.4:8080"] envConfirm false) (startup "")).isDone = false := by
  decide

end ProxyChecker
